import Mathlib

/-!
Verification of the CloudStack load-balancer modules
(`cs_loadbalancer_rule_member.py` and `cs_loadbalancer_rule.py`).

The embedding models one module invocation as a pure function from a
snapshot of provider state (the lists the CloudStack API would return,
plus the error indicator each mutating call's response would carry) and
the module parameters to an outcome recording the returned rule, the
`changed` flag, and the list of mutating API calls issued.
-/

namespace CsLb

/-- A virtual machine as listed by the provider: display name and
provider-internal identifier. -/
structure Vm where
  name : String
  vid : String
deriving DecidableEq, Repr

/-- A load-balancer rule as returned by `listLoadBalancerRules`:
name, provider identifier, and the attributes the modules report. -/
structure Rule where
  name : String
  rid : String
  algorithm : String
  publicport : Nat
  privateport : Nat
  cidrlist : String
deriving DecidableEq, Repr

/-- A mutating provider API call, with the payload the code sends. -/
inductive MutCall where
  | assign (ruleId : String) (vmIds : List String)
  | removeFrom (ruleId : String) (vmIds : List String)
  | createRule (name : String) (algorithm : String) (publicport : Nat)
      (privateport : Nat) (cidrlist : String)
  | deleteRule (ruleId : String)
deriving DecidableEq, Repr

/-- Outcome of one module invocation: either `fail_json` was reached with
a message, or the invocation returned a rule (possibly `None`) with the
`changed` flag.  Both record the mutating calls issued, in order. -/
inductive Outcome where
  | ok (rule : Option Rule) (changed : Bool) (calls : List MutCall)
  | failed (msg : String) (calls : List MutCall)
deriving DecidableEq, Repr

/-- The mutating calls an outcome issued. -/
def Outcome.calls : Outcome → List MutCall
  | .ok _ _ cs => cs
  | .failed _ cs => cs

/-- `get_rule`: `listLoadBalancerRules` filtered by the requested name;
the code takes element `[0]` of the response list, `None` when empty. -/
def getRule (rules : List Rule) (name : String) : Option Rule :=
  (rules.filter (fun r => r.name == name)).head?

/-- `listLoadBalancerRuleInstances(id=...)`: per-rule member listing,
with `res.get(..., [])` defaulting to the empty list. -/
def listRuleInstances (instances : List (String × List Vm)) (ruleId : String) :
    List Vm :=
  match instances.find? (fun p => p.1 == ruleId) with
  | some p => p.2
  | none => []

/-- The delta set `to_change` of `_change_members`:
`set(wanted_names) - set(existing.keys())` for add,
`set(wanted_names) & set(existing.keys())` for remove.
Python sets are modelled as deduplicated lists; iteration order is
irrelevant to every property proved below. -/
def computeDelta (operation : String) (wantedNames existingNames : List String) :
    List String :=
  if operation == "add" then
    (wantedNames.filter (fun n => ! existingNames.contains n)).dedup
  else
    (wantedNames.filter (fun n => existingNames.contains n)).dedup

/-- The resolution loop of `_change_members`: for each delta name take the
first VM in the listing with that name, or `fail_json("Unknown VM: ...")`
via the `for ... else` clause when none matches. -/
def resolveIds (names : List String) (vms : List Vm) : Except String (List String) :=
  match names with
  | [] => .ok []
  | n :: rest =>
    match vms.find? (fun vm => vm.name == n) with
    | some vm =>
      match resolveIds rest vms with
      | .ok ids => .ok (vm.vid :: ids)
      | .error e => .error e
    | none => .error n

/-- Provider-state snapshot and module context for one
`cs_loadbalancer_rule_member` invocation. -/
structure MemberEnv where
  rules : List Rule
  instances : List (String × List Vm)
  vms : List Vm
  checkMode : Bool
  assignErrortext : Option String
  removeErrortext : Option String
deriving Repr

/-- Module parameters of `cs_loadbalancer_rule_member`. -/
structure MemberParams where
  name : String
  vms : List String
  pollAsync : Bool
deriving Repr

/-- The names of the rule's current members, as the keys of the
`existing` dict built from `listLoadBalancerRuleInstances`. -/
def memberNames (env : MemberEnv) (rule : Rule) : List String :=
  (listRuleInstances env.instances rule.rid).map Vm.name

/-- `_change_members(operation)` of `AnsibleCloudStackLBRuleMember`,
step for step: operation guard, rule lookup, member listing, delta
computation, early return on empty delta, VM-name resolution, `changed`
flag, check-mode guard, the single mutating call with its `errortext`
check, and the `poll_async` re-read of the rule. -/
def changeMembers (operation : String) (env : MemberEnv) (p : MemberParams) :
    Outcome :=
  if !(operation == "add" || operation == "remove") then
    .failed ("Bad operation: " ++ operation) []
  else
    match getRule env.rules p.name with
    | none => .failed ("Unknown rule: " ++ p.name) []
    | some rule =>
      let toChange := computeDelta operation p.vms (memberNames env rule)
      if toChange.isEmpty then
        .ok (some rule) false []
      else
        match resolveIds toChange env.vms with
        | .error n => .failed ("Unknown VM: " ++ n) []
        | .ok toChangeIds =>
          let changed := !toChangeIds.isEmpty
          if !toChangeIds.isEmpty && !env.checkMode then
            let call :=
              if operation == "add" then MutCall.assign rule.rid toChangeIds
              else MutCall.removeFrom rule.rid toChangeIds
            let errortext :=
              if operation == "add" then env.assignErrortext
              else env.removeErrortext
            match errortext with
            | some err => .failed ("Failed: " ++ err) [call]
            | none =>
              if p.pollAsync then
                .ok (getRule env.rules p.name) changed [call]
              else
                .ok (some rule) changed [call]
          else
            .ok (some rule) changed []

/-- `add_members`: `_change_members('add')`. -/
def addMembers (env : MemberEnv) (p : MemberParams) : Outcome :=
  changeMembers "add" env p

/-- `remove_members`: `_change_members('remove')`. -/
def removeMembers (env : MemberEnv) (p : MemberParams) : Outcome :=
  changeMembers "remove" env p

/-- Provider-side effect of one mutating call on the per-rule member
listings: `assignToLoadBalancerRule` attaches the identified VMs,
`removeFromLoadBalancerRule` detaches them; rule lifecycle calls do not
touch memberships of other rules here (delete drops the rule's entry). -/
def applyCall (allVms : List Vm) (instances : List (String × List Vm)) :
    MutCall → List (String × List Vm)
  | .assign ruleId vmIds =>
    let newVms := allVms.filter (fun vm => vmIds.contains vm.vid)
    match instances.find? (fun p => p.1 == ruleId) with
    | some _ =>
      instances.map (fun p => if p.1 == ruleId then (p.1, p.2 ++ newVms) else p)
    | none => instances ++ [(ruleId, newVms)]
  | .removeFrom ruleId vmIds =>
    instances.map (fun p =>
      if p.1 == ruleId then (p.1, p.2.filter (fun vm => ! vmIds.contains vm.vid))
      else p)
  | .createRule _ _ _ _ _ => instances
  | .deleteRule ruleId => instances.filter (fun p => ! (p.1 == ruleId))

/-- Cumulative provider-side membership state after a list of calls. -/
def applyCalls (allVms : List Vm) (instances : List (String × List Vm))
    (calls : List MutCall) : List (String × List Vm) :=
  calls.foldl (applyCall allVms) instances

/-- Provider-state snapshot and module context for one
`cs_loadbalancer_rule` invocation. -/
structure RuleEnv where
  rules : List Rule
  checkMode : Bool
  createErrortext : Option String
  deleteErrortext : Option String
  polledCreatedRule : Rule
  rawCreateResponseRule : Rule
deriving Repr

/-- Module parameters of `cs_loadbalancer_rule`. -/
structure RuleParams where
  name : String
  algorithm : String
  publicPort : Nat
  privatePort : Nat
  cidr : String
  pollAsync : Bool
deriving Repr

/-- `create_lb_rule` of `AnsibleCloudStackLBRule`: look the rule up by
name; only when absent and not in check mode issue
`createLoadBalancerRule`, check `errortext`, optionally poll the async
job, and set `changed = True`.  In check mode with the rule absent the
code issues no call and — the `changed` assignment sitting inside the
`not check_mode` branch — leaves `changed` at its `False` default. -/
def createLbRule (env : RuleEnv) (p : RuleParams) : Outcome :=
  match getRule env.rules p.name with
  | some rule => .ok (some rule) false []
  | none =>
    if env.checkMode then
      .ok none false []
    else
      let call := MutCall.createRule p.name p.algorithm p.publicPort
        p.privatePort p.cidr
      match env.createErrortext with
      | some err => .failed ("Failed: " ++ err) [call]
      | none =>
        let rule :=
          if p.pollAsync then env.polledCreatedRule else env.rawCreateResponseRule
        .ok (some rule) true [call]

/-- `delete_lb_rule` of `AnsibleCloudStackLBRule`: look the rule up by
name; only when present and not in check mode issue
`deleteLoadBalancerRule`, check `errortext`, optionally poll, and set
`changed = True`.  As in create, the check-mode path leaves `changed`
at `False`. -/
def deleteLbRule (env : RuleEnv) (p : RuleParams) : Outcome :=
  match getRule env.rules p.name with
  | none => .ok none false []
  | some rule =>
    if env.checkMode then
      .ok (some rule) false []
    else
      let call := MutCall.deleteRule rule.rid
      match env.deleteErrortext with
      | some err => .failed ("Failed: " ++ err) [call]
      | none => .ok (some rule) true [call]

/-! ### Helper lemmas about the resolution loop -/

/-- A successful resolution yields one identifier per delta name. -/
theorem resolveIds_length (names : List String) (vms : List Vm)
    (ids : List String) (h : resolveIds names vms = .ok ids) :
    ids.length = names.length := by
  induction names generalizing ids with
  | nil =>
    simp [resolveIds] at h
    simp [← h]
  | cons n rest ih =>
    rw [resolveIds] at h
    cases hfind : vms.find? (fun vm => vm.name == n) with
    | none => rw [hfind] at h; exact absurd h (by simp)
    | some vm =>
      rw [hfind] at h
      cases hrest : resolveIds rest vms with
      | error e => rw [hrest] at h; exact absurd h (by simp)
      | ok ids0 =>
        rw [hrest] at h
        cases h
        simp [ih ids0 hrest]

/-- Every name of a successfully resolved delta contributes the identifier
of its first matching VM to the identifier list. -/
theorem resolveIds_mem (names : List String) (vms : List Vm)
    (ids : List String) (h : resolveIds names vms = .ok ids)
    (n : String) (hn : n ∈ names) :
    ∃ vm, vms.find? (fun v => v.name == n) = some vm ∧ vm.vid ∈ ids := by
  induction names generalizing ids with
  | nil => cases hn
  | cons m rest ih =>
    rw [resolveIds] at h
    cases hfind : vms.find? (fun vm => vm.name == m) with
    | none => rw [hfind] at h; exact absurd h (by simp)
    | some vm =>
      rw [hfind] at h
      cases hrest : resolveIds rest vms with
      | error e => rw [hrest] at h; exact absurd h (by simp)
      | ok ids0 =>
        rw [hrest] at h
        cases h
        rcases List.mem_cons.mp hn with hcase | hcase
        · subst hcase
          exact ⟨vm, hfind, List.mem_cons_self _ _⟩
        · rcases ih ids0 hrest hcase with ⟨vm0, hv0, hmem⟩
          exact ⟨vm0, hv0, List.mem_cons_of_mem _ hmem⟩

/-- When some delta name has no matching VM, the loop aborts with an
unresolved name from the delta. -/
theorem resolveIds_error_of_missing (names : List String) (vms : List Vm)
    (n : String) (hn : n ∈ names)
    (hfind : vms.find? (fun vm => vm.name == n) = none) :
    ∃ m, m ∈ names ∧ vms.find? (fun vm => vm.name == m) = none ∧
      resolveIds names vms = .error m := by
  induction names with
  | nil => cases hn
  | cons x rest ih =>
    cases hx : vms.find? (fun vm => vm.name == x) with
    | none =>
      exact ⟨x, List.mem_cons_self _ _, hx, by rw [resolveIds, hx]⟩
    | some vm =>
      have hne : n ≠ x := by
        intro he; subst he; rw [hfind] at hx; cases hx
      have hnrest : n ∈ rest := by
        rcases List.mem_cons.mp hn with h | h
        · exact absurd h hne
        · exact h
      rcases ih hnrest with ⟨m, hm, hmfind, hres⟩
      refine ⟨m, List.mem_cons_of_mem _ hm, hmfind, ?_⟩
      rw [resolveIds, hx, hres]

/-! ### Concrete sample data for witnesses -/

/-- A sample rule as `listLoadBalancerRules` would return it. -/
def sampleRule : Rule :=
  { name := "balance_http", rid := "rule-1", algorithm := "source",
    publicport := 80, privateport := 80, cidrlist := "" }

/-- Sample VMs. -/
def vmWeb01 : Vm := { name := "web01", vid := "vm-1" }

def vmWeb02 : Vm := { name := "web02", vid := "vm-2" }

def vmWeb03 : Vm := { name := "web03", vid := "vm-3" }

/-- A member environment where `web01`, `web02` are attached to the rule. -/
def envTwoMembers : MemberEnv :=
  { rules := [sampleRule],
    instances := [("rule-1", [vmWeb01, vmWeb02])],
    vms := [vmWeb01, vmWeb02, vmWeb03],
    checkMode := false,
    assignErrortext := none,
    removeErrortext := none }

/-- Parameters asking for members `web01`, `web02`. -/
def paramsWeb12 : MemberParams :=
  { name := "balance_http", vms := ["web01", "web02"], pollAsync := true }

/-! ### Claim theorems -/

/-- C1: the delta computed by `_change_members` is exactly the specified
set operation — for add, desired names minus current member names; for
remove, desired names intersected with current member names; never more,
never fewer. -/
theorem computeDelta_exact (wanted existing : List String) (n : String) :
    (n ∈ computeDelta "add" wanted existing ↔ n ∈ wanted ∧ n ∉ existing) ∧
    (n ∈ computeDelta "remove" wanted existing ↔ n ∈ wanted ∧ n ∈ existing) := by
  constructor <;>
    simp [computeDelta, List.mem_dedup, List.mem_filter, and_comm]

/-- C2: when the computed delta is empty, `_change_members` issues no
mutating call and reports `changed = false`, whatever the check-mode
flag — repeated invocations with the same desired state are no-ops. -/
theorem changeMembers_empty_delta_noop (operation : String) (env : MemberEnv)
    (p : MemberParams) (rule : Rule)
    (hop : operation = "add" ∨ operation = "remove")
    (hrule : getRule env.rules p.name = some rule)
    (hdelta : computeDelta operation p.vms (memberNames env rule) = []) :
    changeMembers operation env p = .ok (some rule) false [] := by
  rcases hop with h | h <;> subst h <;>
    simp [changeMembers, hrule, hdelta]

/-- Witness for C2: adding `web01`, `web02` when both are already members
reports unchanged and issues no call, in a non-check-mode environment. -/
theorem changeMembers_empty_delta_noop_witness :
    changeMembers "add" envTwoMembers paramsWeb12 =
      .ok (some sampleRule) false [] :=
  changeMembers_empty_delta_noop "add" envTwoMembers paramsWeb12 sampleRule
    (Or.inl rfl) rfl rfl

/-- C5: when no rule with the given name exists in scope, both membership
operations fail with an unknown-rule error naming the rule and issue no
mutating call (in particular they never create a rule). -/
theorem changeMembers_unknown_rule (operation : String) (env : MemberEnv)
    (p : MemberParams)
    (hop : operation = "add" ∨ operation = "remove")
    (hrule : getRule env.rules p.name = none) :
    changeMembers operation env p = .failed ("Unknown rule: " ++ p.name) [] := by
  rcases hop with h | h <;> subst h <;>
    simp [changeMembers, hrule]

/-- Witness for C5: removing members of a rule that does not exist fails
with the unknown-rule message and an empty call list. -/
theorem changeMembers_unknown_rule_witness :
    changeMembers "remove"
      { envTwoMembers with rules := [] } paramsWeb12 =
      .failed ("Unknown rule: " ++ "balance_http") [] :=
  changeMembers_unknown_rule "remove" { envTwoMembers with rules := [] }
    paramsWeb12 (Or.inr rfl) rfl

/-- C8: creating a rule whose name already exists in scope is a no-op:
`changed = false`, no create call, and the returned rule is the existing
one, its attributes untouched whatever parameters the caller supplied. -/
theorem createLbRule_existing_noop (env : RuleEnv) (p : RuleParams)
    (rule : Rule) (hrule : getRule env.rules p.name = some rule) :
    createLbRule env p = .ok (some rule) false [] := by
  simp [createLbRule, hrule]

/-- Witness for C8: re-creating `balance_http` with a different algorithm
and ports returns the existing rule unchanged and issues no call. -/
theorem createLbRule_existing_noop_witness :
    createLbRule
      { rules := [sampleRule], checkMode := false, createErrortext := none,
        deleteErrortext := none, polledCreatedRule := sampleRule,
        rawCreateResponseRule := sampleRule }
      { name := "balance_http", algorithm := "leastconn", publicPort := 80,
        privatePort := 8080, cidr := "", pollAsync := true } =
      .ok (some sampleRule) false [] :=
  createLbRule_existing_noop _ _ sampleRule rfl

/-- C9 (divergence witness): in check mode the rule-lifecycle paths issue
no provider call but also leave `changed` at `false` — the
`self.result['changed'] = True` assignments sit inside the
`not check_mode` branches — so a would-be create (rule absent) and a
would-be delete (rule present) both report unchanged. -/
theorem lbRule_check_mode_reports_unchanged :
    createLbRule
      { rules := [], checkMode := true, createErrortext := none,
        deleteErrortext := none, polledCreatedRule := sampleRule,
        rawCreateResponseRule := sampleRule }
      { name := "balance_http", algorithm := "leastconn", publicPort := 80,
        privatePort := 8080, cidr := "", pollAsync := true } =
      .ok none false [] ∧
    deleteLbRule
      { rules := [sampleRule], checkMode := true, createErrortext := none,
        deleteErrortext := none, polledCreatedRule := sampleRule,
        rawCreateResponseRule := sampleRule }
      { name := "balance_http", algorithm := "leastconn", publicPort := 80,
        privatePort := 8080, cidr := "", pollAsync := true } =
      .ok (some sampleRule) false [] :=
  ⟨rfl, rfl⟩

/-- Parameters asking for member `web03` only. -/
def paramsWeb3 : MemberParams :=
  { name := "balance_http", vms := ["web03"], pollAsync := true }

/-- C3: in check mode, a non-empty delta whose names all resolve yields
`changed = true` while no mutating call is issued, so the provider
membership state is left unchanged. -/
theorem changeMembers_check_mode_frame (operation : String) (env : MemberEnv)
    (p : MemberParams) (rule : Rule) (ids : List String)
    (hop : operation = "add" ∨ operation = "remove")
    (hrule : getRule env.rules p.name = some rule)
    (hcheck : env.checkMode = true)
    (hne : computeDelta operation p.vms (memberNames env rule) ≠ [])
    (hres : resolveIds (computeDelta operation p.vms (memberNames env rule))
      env.vms = .ok ids) :
    changeMembers operation env p = .ok (some rule) true [] ∧
    applyCalls env.vms env.instances (changeMembers operation env p).calls =
      env.instances := by
  have hlen := resolveIds_length _ _ _ hres
  have hids : ids ≠ [] := by
    intro h
    subst h
    exact hne (List.eq_nil_of_length_eq_zero hlen.symm)
  have hmain : changeMembers operation env p = .ok (some rule) true [] := by
    rcases hop with h | h <;> subst h <;>
      simp [changeMembers, hrule, hcheck, hres, hne, hids]
  exact ⟨hmain, by rw [hmain]; rfl⟩

/-- Witness for C3: check-mode add of `web03` to a rule holding `web01`,
`web02` reports changed without touching membership state. -/
theorem changeMembers_check_mode_frame_witness :
    changeMembers "add" { envTwoMembers with checkMode := true } paramsWeb3 =
      .ok (some sampleRule) true [] ∧
    applyCalls { envTwoMembers with checkMode := true }.vms
      { envTwoMembers with checkMode := true }.instances
      (changeMembers "add" { envTwoMembers with checkMode := true }
        paramsWeb3).calls =
      { envTwoMembers with checkMode := true }.instances :=
  changeMembers_check_mode_frame "add" { envTwoMembers with checkMode := true }
    paramsWeb3 sampleRule ["vm-3"] (Or.inl rfl) rfl rfl (by decide) rfl

/-- C4: when the delta holds a VM name with no match in the scoped VM
listing, `_change_members` fails with an unknown-VM error naming an
offending (unmatched) delta name and issues no mutating call. -/
theorem changeMembers_unknown_vm (operation : String) (env : MemberEnv)
    (p : MemberParams) (rule : Rule) (n : String)
    (hop : operation = "add" ∨ operation = "remove")
    (hrule : getRule env.rules p.name = some rule)
    (hn : n ∈ computeDelta operation p.vms (memberNames env rule))
    (hfind : env.vms.find? (fun vm => vm.name == n) = none) :
    ∃ m, m ∈ computeDelta operation p.vms (memberNames env rule) ∧
      env.vms.find? (fun vm => vm.name == m) = none ∧
      changeMembers operation env p = .failed ("Unknown VM: " ++ m) [] := by
  rcases resolveIds_error_of_missing _ env.vms n hn hfind with
    ⟨m, hm, hmfind, hres⟩
  have hne : computeDelta operation p.vms (memberNames env rule) ≠ [] := by
    intro h
    rw [h] at hn
    cases hn
  refine ⟨m, hm, hmfind, ?_⟩
  rcases hop with h | h <;> subst h <;>
    simp [changeMembers, hrule, hres, hne]

/-- Witness for C4: adding the unknown name `web09` fails with the
unknown-VM message and an empty call list. -/
theorem changeMembers_unknown_vm_witness :
    ∃ m, m ∈ computeDelta "add" ["web09"]
        (memberNames envTwoMembers sampleRule) ∧
      envTwoMembers.vms.find? (fun vm => vm.name == m) = none ∧
      changeMembers "add" envTwoMembers
        { name := "balance_http", vms := ["web09"], pollAsync := true } =
        .failed ("Unknown VM: " ++ m) [] :=
  changeMembers_unknown_vm "add" envTwoMembers
    { name := "balance_http", vms := ["web09"], pollAsync := true }
    sampleRule "web09" (Or.inl rfl) rfl (by decide) rfl

/-- C6: outside check mode, a non-empty fully resolved delta triggers
exactly one mutating call — assign for add, remove for remove, never the
other one — carrying one identifier per delta name, with every delta
name's first-match identifier in the payload. -/
theorem changeMembers_single_call (operation : String) (env : MemberEnv)
    (p : MemberParams) (rule : Rule) (ids : List String)
    (hop : operation = "add" ∨ operation = "remove")
    (hrule : getRule env.rules p.name = some rule)
    (hcheck : env.checkMode = false)
    (hne : computeDelta operation p.vms (memberNames env rule) ≠ [])
    (hres : resolveIds (computeDelta operation p.vms (memberNames env rule))
      env.vms = .ok ids) :
    (changeMembers operation env p).calls =
      [if operation == "add" then MutCall.assign rule.rid ids
       else MutCall.removeFrom rule.rid ids] ∧
    ids.length = (computeDelta operation p.vms (memberNames env rule)).length ∧
    ∀ n ∈ computeDelta operation p.vms (memberNames env rule),
      ∃ vm, env.vms.find? (fun v => v.name == n) = some vm ∧ vm.vid ∈ ids := by
  have hlen := resolveIds_length _ _ _ hres
  have hids : ids ≠ [] := by
    intro h
    subst h
    exact hne (List.eq_nil_of_length_eq_zero hlen.symm)
  refine ⟨?_, hlen, fun n hn => resolveIds_mem _ _ _ hres n hn⟩
  rcases hop with h | h <;> subst h
  · cases herr : env.assignErrortext with
    | some err =>
      simp [changeMembers, hrule, hres, hcheck, hne, hids, herr, Outcome.calls]
    | none =>
      cases hpoll : p.pollAsync <;>
        simp [changeMembers, hrule, hres, hcheck, hne, hids, herr, hpoll,
          Outcome.calls]
  · cases herr : env.removeErrortext with
    | some err =>
      simp [changeMembers, hrule, hres, hcheck, hne, hids, herr, Outcome.calls]
    | none =>
      cases hpoll : p.pollAsync <;>
        simp [changeMembers, hrule, hres, hcheck, hne, hids, herr, hpoll,
          Outcome.calls]

/-- Witness for C6: a non-check-mode add of `web03` issues the single
assign call with `web03`'s identifier. -/
theorem changeMembers_single_call_witness :
    (changeMembers "add" envTwoMembers paramsWeb3).calls =
      [MutCall.assign "rule-1" ["vm-3"]] := by
  have h := changeMembers_single_call "add" envTwoMembers paramsWeb3
    sampleRule ["vm-3"] (Or.inl rfl) rfl rfl (by decide) rfl
  simpa using h.1

/-- C7: a mutating call whose response carries an `errortext` indicator
makes the invocation fail at once with that error text, the call having
been issued exactly once (no retry) — for member add, member remove, and
rule create alike. -/
theorem errortext_fail_no_retry (env : MemberEnv) (p : MemberParams)
    (rule : Rule) (ids : List String) (err : String)
    (renv : RuleEnv) (rp : RuleParams) :
    (getRule env.rules p.name = some rule →
      env.checkMode = false →
      computeDelta "add" p.vms (memberNames env rule) ≠ [] →
      resolveIds (computeDelta "add" p.vms (memberNames env rule)) env.vms =
        .ok ids →
      env.assignErrortext = some err →
      changeMembers "add" env p =
        .failed ("Failed: " ++ err) [MutCall.assign rule.rid ids]) ∧
    (getRule env.rules p.name = some rule →
      env.checkMode = false →
      computeDelta "remove" p.vms (memberNames env rule) ≠ [] →
      resolveIds (computeDelta "remove" p.vms (memberNames env rule)) env.vms =
        .ok ids →
      env.removeErrortext = some err →
      changeMembers "remove" env p =
        .failed ("Failed: " ++ err) [MutCall.removeFrom rule.rid ids]) ∧
    (getRule renv.rules rp.name = none →
      renv.checkMode = false →
      renv.createErrortext = some err →
      createLbRule renv rp =
        .failed ("Failed: " ++ err)
          [MutCall.createRule rp.name rp.algorithm rp.publicPort
            rp.privatePort rp.cidr]) := by
  refine ⟨fun hrule hcheck hne hres herr => ?_,
    fun hrule hcheck hne hres herr => ?_,
    fun hrule hcheck herr => ?_⟩
  · have hids : ids ≠ [] := by
      intro h
      subst h
      exact hne (List.eq_nil_of_length_eq_zero
        (resolveIds_length _ _ _ hres).symm)
    simp [changeMembers, hrule, hcheck, hne, hres, hids, herr]
  · have hids : ids ≠ [] := by
      intro h
      subst h
      exact hne (List.eq_nil_of_length_eq_zero
        (resolveIds_length _ _ _ hres).symm)
    simp [changeMembers, hrule, hcheck, hne, hres, hids, herr]
  · simp [createLbRule, hrule, hcheck, herr]

/-- Witness for C7: error responses on assign, remove and create each
abort with the carried error text after the single issued call. -/
theorem errortext_fail_no_retry_witness :
    changeMembers "add" { envTwoMembers with assignErrortext := some "boom" }
      paramsWeb3 =
      .failed ("Failed: " ++ "boom") [MutCall.assign "rule-1" ["vm-3"]] ∧
    changeMembers "remove"
      { envTwoMembers with removeErrortext := some "boom" } paramsWeb12 =
      .failed ("Failed: " ++ "boom")
        [MutCall.removeFrom "rule-1" ["vm-1", "vm-2"]] ∧
    createLbRule
      { rules := [], checkMode := false, createErrortext := some "boom",
        deleteErrortext := none, polledCreatedRule := sampleRule,
        rawCreateResponseRule := sampleRule }
      { name := "balance_http", algorithm := "leastconn", publicPort := 80,
        privatePort := 8080, cidr := "", pollAsync := true } =
      .failed ("Failed: " ++ "boom")
        [MutCall.createRule "balance_http" "leastconn" 80 8080 ""] :=
  ⟨(errortext_fail_no_retry
      { envTwoMembers with assignErrortext := some "boom" } paramsWeb3
      sampleRule ["vm-3"] "boom"
      { rules := [], checkMode := false, createErrortext := some "boom",
        deleteErrortext := none, polledCreatedRule := sampleRule,
        rawCreateResponseRule := sampleRule }
      { name := "balance_http", algorithm := "leastconn", publicPort := 80,
        privatePort := 8080, cidr := "", pollAsync := true }).1
      rfl rfl (by decide) rfl rfl,
   (errortext_fail_no_retry
      { envTwoMembers with removeErrortext := some "boom" } paramsWeb12
      sampleRule ["vm-1", "vm-2"] "boom"
      { rules := [], checkMode := false, createErrortext := some "boom",
        deleteErrortext := none, polledCreatedRule := sampleRule,
        rawCreateResponseRule := sampleRule }
      { name := "balance_http", algorithm := "leastconn", publicPort := 80,
        privatePort := 8080, cidr := "", pollAsync := true }).2.1
      rfl rfl (by decide) rfl rfl,
   (errortext_fail_no_retry envTwoMembers paramsWeb3 sampleRule ["vm-3"]
      "boom"
      { rules := [], checkMode := false, createErrortext := some "boom",
        deleteErrortext := none, polledCreatedRule := sampleRule,
        rawCreateResponseRule := sampleRule }
      { name := "balance_http", algorithm := "leastconn", publicPort := 80,
        privatePort := 8080, cidr := "", pollAsync := true }).2.2
      rfl rfl rfl⟩

/-- C10: name resolution is restricted to the delta — when the delta is
empty (add with all names already members, remove with none a member),
`_change_members` succeeds unchanged under any VM listing whatsoever, so
desired names that exist as no VM in scope cause no failure. -/
theorem changeMembers_delta_only_resolution (operation : String)
    (env : MemberEnv) (p : MemberParams) (rule : Rule)
    (hrule : getRule env.rules p.name = some rule)
    (hcond : (operation = "add" ∧ ∀ n ∈ p.vms, n ∈ memberNames env rule) ∨
      (operation = "remove" ∧ ∀ n ∈ p.vms, n ∉ memberNames env rule)) :
    ∀ otherVms : List Vm,
      changeMembers operation { env with vms := otherVms } p =
        .ok (some rule) false [] := by
  intro otherVms
  rcases hcond with ⟨h, hall⟩ | ⟨h, hall⟩ <;> subst h
  · have hdelta :
        computeDelta "add" p.vms (memberNames env rule) = [] := by
      rw [List.eq_nil_iff_forall_not_mem]
      intro n hn
      simp [computeDelta, List.mem_dedup, List.mem_filter] at hn
      exact hn.2 (hall n hn.1)
    simp only [memberNames] at hdelta
    simp [changeMembers, memberNames, hrule, hdelta]
  · have hdelta :
        computeDelta "remove" p.vms (memberNames env rule) = [] := by
      rw [List.eq_nil_iff_forall_not_mem]
      intro n hn
      simp [computeDelta, List.mem_dedup, List.mem_filter] at hn
      exact hall n hn.1 hn.2
    simp only [memberNames] at hdelta
    simp [changeMembers, memberNames, hrule, hdelta]

/-- Witness for C10: adding `web01`, `web02` when both are members
succeeds unchanged even against an empty VM listing, where neither name
exists as a VM. -/
theorem changeMembers_delta_only_resolution_witness :
    changeMembers "add" { envTwoMembers with vms := [] } paramsWeb12 =
      .ok (some sampleRule) false [] :=
  changeMembers_delta_only_resolution "add" envTwoMembers paramsWeb12
    sampleRule rfl (Or.inl ⟨rfl, by decide⟩) []

end CsLb
